import Mathlib

/-!
Verification of the DNS query interceptor pipeline (wide-vsix/dns-query-interceptor,
src/interceptor.go) against its natural-language specification.

The per-frame pipeline of `interceptor` is embedded shallowly:

* a captured frame (`gopacket.Packet`) is modelled by the `Packet` structure,
  recording exactly the observations the Go code makes of it: whether some layer
  failed to decode (`packet.ErrorLayer()`), the IPv6 layer's addresses, the
  UDP/TCP layer's ports, and the DNS layer's questions and answers;
* IP addresses (`net.IP`, a byte slice that may be nil) are modelled by
  `Option (List Nat)`, `none` standing for the nil slice;
* the record types `InterceptorLogCommon`, `QueryLog`, `ResponseLog` are
  translated field-for-field (`time.Now()` becomes an explicit `now` argument);
* functions that can dereference a nil pointer return `Except GoPanic`, where
  `GoPanic.nilPointerDeref` stands for the Go runtime panic;
* `os.Exit(1)` in the database exporter is modelled by returning `none`;
* the stdout / database sinks are modelled by an `ExportEnv` accumulating the
  records each sink received, together with the `errCounter` global.
-/

namespace DnsInterceptor

/-! ## The gopacket view of a captured frame -/

/-- One entry of `dns.Questions` (`layers.DNSQuestion`): the name bytes and the
numeric resource-record type (`layers.DNSType`, a uint16; the Go field is
called `Type`, a keyword here). -/
structure DNSQuestion where
  Name : String
  Typ : Nat
  deriving DecidableEq

/-- One entry of `dns.Answers` (`layers.DNSResourceRecord`); the Go code reads
only its `IP` field (`net.IP`, nil for record types carrying no address). -/
structure DNSResourceRecord where
  IP : Option (List Nat)
  deriving DecidableEq

/-- The decoded DNS layer (`layers.DNS`): the question and answer sections. -/
structure DNSMessage where
  Questions : List DNSQuestion
  Answers : List DNSResourceRecord
  deriving DecidableEq

/-- A captured frame, as observed by `interceptor`'s per-frame code:
`errorLayer` is whether `packet.ErrorLayer()` is non-nil; the remaining fields
are the IPv6 / UDP / TCP / DNS layers (`none` when the layer is absent).
Ports are uint16 on the wire, addresses are byte slices. -/
structure Packet where
  errorLayer : Bool
  ip6 : Option (List Nat × List Nat)
  udp : Option (Nat × Nat)
  tcp : Option (Nat × Nat)
  dns : Option DNSMessage
  deriving DecidableEq

/-- The gopacket method `layers.DNSType.String()`, on the numeric type code. -/
def dnsTypeString (t : Nat) : String :=
  if t = 1 then "A"
  else if t = 2 then "NS"
  else if t = 3 then "MD"
  else if t = 4 then "MF"
  else if t = 5 then "CNAME"
  else if t = 6 then "SOA"
  else if t = 7 then "MB"
  else if t = 8 then "MG"
  else if t = 9 then "MR"
  else if t = 10 then "NULL"
  else if t = 11 then "WKS"
  else if t = 12 then "PTR"
  else if t = 13 then "HINFO"
  else if t = 14 then "MINFO"
  else if t = 15 then "MX"
  else if t = 16 then "TXT"
  else if t = 28 then "AAAA"
  else if t = 33 then "SRV"
  else if t = 41 then "OPT"
  else if t = 256 then "URI"
  else "Unknown"

/-! ## The net stdlib: `IPNet.Contains` for the parsed `64:ff9b::/96` -/

/-- The byte slice behind a `net.IP` value: a nil IP has length zero. -/
def goIPBytes (ip : Option (List Nat)) : List Nat :=
  ip.getD []

/-- The stdlib `net.IP.To4`: a 4-byte address is returned as is; a 16-byte IPv4-mapped
address (ten zero bytes then 0xff 0xff) is shortened to its last 4 bytes;
anything else yields nil. -/
def ipTo4 (ip : List Nat) : Option (List Nat) :=
  if ip.length = 4 then some ip
  else if ip.length = 16 ∧ ip.take 12 = [0, 0, 0, 0, 0, 0, 0, 0, 0, 0, 255, 255] then
    some (ip.drop 12)
  else none

/-- The 16 network-number bytes of `net.ParseCIDR "64:ff9b::/96"`. -/
def nat64NetNumber : List Nat :=
  [0x00, 0x64, 0xff, 0x9b, 0, 0, 0, 0, 0, 0, 0, 0, 0, 0, 0, 0]

/-- The 16 mask bytes of `net.ParseCIDR "64:ff9b::/96"` (`CIDRMask 96 128`). -/
def nat64NetMask : List Nat :=
  [255, 255, 255, 255, 255, 255, 255, 255, 255, 255, 255, 255, 0, 0, 0, 0]

/-- The byte-comparison loop of `net.IPNet.Contains`:
every position must satisfy nn[i] and m[i] = ip[i] and m[i]. -/
def ipNetContainsLoop : List Nat → List Nat → List Nat → Bool
  | nByte :: ns, mByte :: ms, iByte :: ips =>
      ((nByte &&& mByte) == (iByte &&& mByte)) && ipNetContainsLoop ns ms ips
  | _, _, _ => true

/-- The test `nat64_prefix.Contains ip` for the parsed `64:ff9b::/96` network
(`newResponseLog`, interceptor.go:169 and 176): the address is first narrowed
by `To4`, rejected unless it has the network number's 16 bytes, then compared
under the mask. -/
def nat64Contains (ipOpt : Option (List Nat)) : Bool :=
  let ip := goIPBytes ipOpt
  let ip2 := match ipTo4 ip with
    | some x => x
    | none => ip
  if ip2.length ≠ 16 then false
  else ipNetContainsLoop nat64NetNumber nat64NetMask ip2

/-! ## The record types (interceptor.go:47-67) -/

/-- Structure `InterceptorLogCommon` (interceptor.go:47-54). -/
structure InterceptorLogCommon where
  Timestamp : Nat
  SrcIP : List Nat
  DstIP : List Nat
  SrcPort : Nat
  DstPort : Nat
  TransTCP : Bool
  deriving DecidableEq

/-- Structure `QueryLog` (interceptor.go:56-61); `common` is the embedded
`InterceptorLogCommon`. -/
structure QueryLog where
  common : InterceptorLogCommon
  QString : String
  QType : String
  hasAnswer : Bool
  deriving DecidableEq

/-- Structure `ResponseLog` (interceptor.go:63-67); `query` is the embedded `QueryLog`
(so `r.hasAnswer` in Go is `query.hasAnswer` here). -/
structure ResponseLog where
  query : QueryLog
  AnsIP : Option (List Nat)
  IPv6Ready : Bool
  deriving DecidableEq

/-- The `InterceptorLog` interface value handed to the exporters: a query view
or a response view of the frame. -/
inductive InterceptorLog where
  | query : QueryLog → InterceptorLog
  | response : ResponseLog → InterceptorLog
  deriving DecidableEq

/-- A Go runtime panic reached by the embedded code. -/
inductive GoPanic where
  | nilPointerDeref
  deriving DecidableEq

/-! ## Per-frame record construction (interceptor.go:111-183) -/

/-- Function `newInterceptorLogCommon` (interceptor.go:111-142): nil on a decode error
or a missing IPv6 layer; ports come from the UDP layer and are overridden by
the TCP layer when both are present; `now` stands for `time.Now()`. -/
def newInterceptorLogCommon (now : Nat) (p : Packet) : Option InterceptorLogCommon :=
  if p.errorLayer then
    -- "Failed to decode some part of the packet" diagnostic, then nil
    none
  else
    match p.ip6 with
    | none => none
    | some (srcIP, dstIP) =>
      let c : InterceptorLogCommon :=
        { Timestamp := now, SrcIP := srcIP, DstIP := dstIP
          SrcPort := 0, DstPort := 0, TransTCP := false }
      let c := match p.udp with
        | some (sp, dp) => { c with SrcPort := sp, DstPort := dp }
        | none => c
      let c := match p.tcp with
        | some (sp, dp) => { c with SrcPort := sp, DstPort := dp, TransTCP := true }
        | none => c
      some c

/-- Function `newQueryLog` (interceptor.go:144-160), after the common record has been
dereferenced (the Go parameter is a pointer; `interceptor` passes a possibly
nil one, see `processPacket`): nil unless a DNS layer with at least one
question is present; only question index 0 is read. -/
def newQueryLog (p : Packet) (c : InterceptorLogCommon) : Option QueryLog :=
  match p.dns with
  | some dns =>
    match dns.Questions with
    | question :: _ =>
      some { common := c
             QString := question.Name
             QType := dnsTypeString question.Typ
             hasAnswer := decide (dns.Answers.length > 0) }
    | [] => none
  | none => none

/-- Function `newResponseLog` (interceptor.go:162-183): nil when the query view is nil,
or when no DNS layer with at least one answer is present; only answer index 0
is read; `hasAnswer` is recomputed from the answer address being non-nil, and
`IPv6Ready` from non-containment in `64:ff9b::/96`. -/
def newResponseLog (p : Packet) (q : Option QueryLog) : Option ResponseLog :=
  match q with
  | none => none
  | some ql =>
    match p.dns with
    | some dns =>
      match dns.Answers with
      | answer :: _ =>
        some { query := { ql with hasAnswer := answer.IP.isSome }
               AnsIP := answer.IP
               IPv6Ready := !(nat64Contains answer.IP) }
      | [] => none
    | none => none

/-! ## The emission decision (interceptor.go:242-256) -/

/-- Guard `is_valid_query` (interceptor.go:242). -/
def isValidQueryB (c : InterceptorLogCommon) (q : Option QueryLog) : Bool :=
  (c.DstPort == 53) && q.isSome

/-- Guard `is_valid_response` (interceptor.go:243). -/
def isValidResponseB (c : InterceptorLogCommon) (r : Option ResponseLog) : Bool :=
  (c.SrcPort == 53) && r.isSome

/-- Guard `has_aaaa_answer` (interceptor.go:244); the match mirrors Go's
short-circuit: `r.QType` and `r.hasAnswer` are only read when the response
view exists, which `is_valid_response` guarantees. -/
def hasAAAAAnswerB (c : InterceptorLogCommon) (r : Option ResponseLog) : Bool :=
  isValidResponseB c r &&
    (match r with
     | some rl => (rl.query.QType == "AAAA") && rl.query.hasAnswer
     | none => false)

/-- One iteration of `interceptor`'s per-frame loop (interceptor.go:237-256),
up to the record handed to the exporters: `Except.ok none` models `continue`
(no emission), `Except.ok (some log)` models one fan-out call with `log`, and
`Except.error` models a Go runtime panic. When `newInterceptorLogCommon`
returns nil, `newQueryLog` dereferences the nil pointer
(`q.InterceptorLogCommon = *c`, interceptor.go:146) and the process panics. -/
def processPacket (sniffFlag : Bool) (now : Nat) (p : Packet) :
    Except GoPanic (Option InterceptorLog) :=
  match newInterceptorLogCommon now p with
  | none => Except.error GoPanic.nilPointerDeref
  | some c =>
    let q := newQueryLog p c
    let r := newResponseLog p q
    let is_valid_query := isValidQueryB c q
    let has_aaaa_answer := hasAAAAAnswerB c r
    if !is_valid_query && !has_aaaa_answer then
      Except.ok none
    else if sniffFlag && has_aaaa_answer then
      match r with
      | some rl => Except.ok (some (InterceptorLog.response rl))
      | none => Except.error GoPanic.nilPointerDeref
    else
      match q with
      | some ql => Except.ok (some (InterceptorLog.query ql))
      | none => Except.error GoPanic.nilPointerDeref

/-! ## The exporters (interceptor.go:185-222, 254-256, 276-314) -/

/-- The observable state of the two sinks: the records the console sink
printed, the rows the database sink inserted, and the process-wide
`errCounter` (a uint16). -/
structure ExportEnv where
  consoleOut : List InterceptorLog
  dbRows : List InterceptorLog
  errCounter : Nat
  deriving DecidableEq

/-- A sink, as called by the fan-out loop: it consumes the record and updates
the environment; `none` models `os.Exit(1)` inside the sink. -/
def Sink : Type :=
  InterceptorLog → ExportEnv → Option ExportEnv

/-- Function `stdExporter` (interceptor.go:185-189): prints the record (the interface
value handed over by `interceptor` is never nil) and never fails. -/
def stdExporterSink : Sink :=
  fun qr env => some { env with consoleOut := env.consoleOut ++ [qr] }

/-- The closure returned by `newDBExporter` (interceptor.go:203-214), with the
outcome of `db.Model(qr).Insert()` made explicit: on failure the uint16
`errCounter` is incremented and `os.Exit(1)` fires once it exceeds 5 (modelled
by `none`); on success the row is stored and the counter reset to zero. -/
def dbExporterRun (insertOk : Bool) (qr : InterceptorLog) (env : ExportEnv) :
    Option ExportEnv :=
  if insertOk = false then
    -- "Failed to issue INSERT" diagnostic
    let c := (env.errCounter + 1) % 65536
    if c > 5 then
      -- "Exit with DB connection problem", os.Exit(1)
      none
    else some { env with errCounter := c }
  else
    some { env with dbRows := env.dbRows ++ [qr], errCounter := 0 }

/-- The database sink as an element of the exporter list. -/
def dbExporterSink (insertOk : Bool) : Sink :=
  fun qr env => dbExporterRun insertOk qr env

/-- The fan-out loop `for _, exporter := range exporters` (interceptor.go:254-256):
each registered sink consumes the record in registration order. -/
def fanout : List Sink → InterceptorLog → ExportEnv → Option ExportEnv
  | [], _, env => some env
  | sink :: rest, qr, env =>
    match sink qr env with
    | none => none
    | some env2 => fanout rest qr env2

/-- Repeated calls of the database exporter with the given insert outcomes
(the record inserted is the same each time), tracking `errCounter`. -/
def runDBExporter (qr : InterceptorLog) : List Bool → ExportEnv → Option ExportEnv
  | [], env => some env
  | ok :: rest, env =>
    match dbExporterRun ok qr env with
    | none => none
    | some env2 => runDBExporter qr rest env2

/-! ## Spec-side definitions -/

/-- The first 12 bytes (96 bits) of `64:ff9b::`. -/
def nat64First12 : List Nat :=
  [0x00, 0x64, 0xff, 0x9b, 0, 0, 0, 0, 0, 0, 0, 0]

/-- Written from the spec's words: an answer address lies inside the NAT64
synthesis block `64:ff9b::/96` iff it is a 16-byte IPv6 address whose first
96 bits (12 bytes) are those of `64:ff9b::`. -/
def insideNat64 (ipOpt : Option (List Nat)) : Prop :=
  ∃ ip, ipOpt = some ip ∧ ip.length = 16 ∧ ip.take 12 = nat64First12

/-! ## Concrete frames used as witnesses -/

/-- A client IPv6 address, `2001:db8::2`. -/
def clientIP : List Nat :=
  [0x20, 0x01, 0x0d, 0xb8, 0, 0, 0, 0, 0, 0, 0, 0, 0, 0, 0, 2]

/-- A resolver IPv6 address, `2001:db8::53`. -/
def serverIP : List Nat :=
  [0x20, 0x01, 0x0d, 0xb8, 0, 0, 0, 0, 0, 0, 0, 0, 0, 0, 0, 0x53]

/-- The answer address `2001:db8::1`, outside `64:ff9b::/96`. -/
def addrDocu : List Nat :=
  [0x20, 0x01, 0x0d, 0xb8, 0, 0, 0, 0, 0, 0, 0, 0, 0, 0, 0, 1]

/-- The boundary address `64:ff9b::`, the first address of `64:ff9b::/96`. -/
def addr64ff9b : List Nat :=
  [0x00, 0x64, 0xff, 0x9b, 0, 0, 0, 0, 0, 0, 0, 0, 0, 0, 0, 0]

/-- The address `64:ff9a::`, just outside `64:ff9b::/96`. -/
def addr64ff9a : List Nat :=
  [0x00, 0x64, 0xff, 0x9a, 0, 0, 0, 0, 0, 0, 0, 0, 0, 0, 0, 0]

/-- A frame that is simultaneously a valid query and a qualifying AAAA
response: UDP source and destination port 53, one AAAA question, one answer. -/
def dualPacket : Packet :=
  { errorLayer := false
    ip6 := some (serverIP, clientIP)
    udp := some (53, 53)
    tcp := none
    dns := some { Questions := [{ Name := "example.com.", Typ := 28 }]
                  Answers := [{ IP := some addrDocu }] } }

/-- The endpoint metadata `newInterceptorLogCommon` derives from `dualPacket`
at time 0. -/
def dualCommon : InterceptorLogCommon :=
  { Timestamp := 0, SrcIP := serverIP, DstIP := clientIP
    SrcPort := 53, DstPort := 53, TransTCP := false }

/-- The query view of `dualPacket`. -/
def dualQuery : QueryLog :=
  { common := dualCommon, QString := "example.com.", QType := "AAAA", hasAnswer := true }

/-- The response view of `dualPacket`. -/
def dualResp : ResponseLog :=
  { query := dualQuery, AnsIP := some addrDocu, IPv6Ready := true }

/-- An IPv4 DNS query frame: the BPF filter `port 53` matches it, but it has
no IPv6 layer, so `newInterceptorLogCommon` returns nil. -/
def ipv4DnsPacket : Packet :=
  { errorLayer := false
    ip6 := none
    udp := some (40000, 53)
    tcp := none
    dns := some { Questions := [{ Name := "example.com.", Typ := 1 }], Answers := [] } }

/-- A frame one of whose layers failed to decode. -/
def decodeErrorPacket : Packet :=
  { errorLayer := true
    ip6 := some (clientIP, serverIP)
    udp := some (40000, 53)
    tcp := none
    dns := none }

/-- A plain query frame: one A question, no answers (spec end-to-end scenario). -/
def queryOnlyPacket : Packet :=
  { errorLayer := false
    ip6 := some (clientIP, serverIP)
    udp := some (40000, 53)
    tcp := none
    dns := some { Questions := [{ Name := "example.com.", Typ := 1 }], Answers := [] } }

/-- A response frame whose first answer carries no IP address (nil `answer.IP`,
e.g. a CNAME record). -/
def nilAnswerPacket : Packet :=
  { errorLayer := false
    ip6 := some (serverIP, clientIP)
    udp := some (53, 40000)
    tcp := none
    dns := some { Questions := [{ Name := "example.com.", Typ := 28 }]
                  Answers := [{ IP := none }] } }

/-- Variant of `dualPacket` with the answer replaced by the NAT64-synthesized boundary
address `64:ff9b::`. -/
def nat64AnswerPacket : Packet :=
  { errorLayer := false
    ip6 := some (serverIP, clientIP)
    udp := some (53, 53)
    tcp := none
    dns := some { Questions := [{ Name := "example.com.", Typ := 28 }]
                  Answers := [{ IP := some addr64ff9b }] } }

/-- Variant of `dualPacket` with the answer replaced by `64:ff9a::`, just outside the
NAT64 block. -/
def justOutsidePacket : Packet :=
  { errorLayer := false
    ip6 := some (serverIP, clientIP)
    udp := some (53, 53)
    tcp := none
    dns := some { Questions := [{ Name := "example.com.", Typ := 28 }]
                  Answers := [{ IP := some addr64ff9a }] } }

/-! ## Helper lemmas -/

theorem andByte255 (b : Nat) (hb : b < 256) : b &&& 255 = b := by
  have h : b &&& (2 ^ 8 - 1) = b % 2 ^ 8 := Nat.and_pow_two_sub_one_eq_mod b 8
  have h2 : b % 2 ^ 8 = b := Nat.mod_eq_of_lt (by omega)
  calc b &&& 255 = b &&& (2 ^ 8 - 1) := by norm_num
    _ = b % 2 ^ 8 := h
    _ = b := h2

theorem ipNetContainsLoop_append (ns1 ms1 is1 ns2 ms2 is2 : List Nat)
    (h1 : ns1.length = is1.length) (h2 : ms1.length = is1.length) :
    ipNetContainsLoop (ns1 ++ ns2) (ms1 ++ ms2) (is1 ++ is2) =
      (ipNetContainsLoop ns1 ms1 is1 && ipNetContainsLoop ns2 ms2 is2) := by
  induction ns1 generalizing ms1 is1 with
  | nil =>
    have hi : is1 = [] := List.length_eq_zero.mp h1.symm
    subst hi
    have hm : ms1 = [] := List.length_eq_zero.mp h2
    subst hm
    simp [ipNetContainsLoop]
  | cons n ns ih =>
    cases is1 with
    | nil => simp at h1
    | cons i itail =>
      cases ms1 with
      | nil => simp at h2
      | cons m mtail =>
        simp only [List.length_cons] at h1 h2
        simp only [List.cons_append, ipNetContainsLoop, List.append_eq]
        rw [ih mtail itail (by omega) (by omega), Bool.and_assoc]

theorem ipNetContainsLoop_mask255 (ns : List Nat) :
    ∀ ips : List Nat, (∀ b ∈ ns, b < 256) → (∀ b ∈ ips, b < 256) →
      ns.length = ips.length →
      (ipNetContainsLoop ns (List.replicate ns.length 255) ips = true ↔ ns = ips) := by
  induction ns with
  | nil =>
    intro ips _ _ hlen
    have hi : ips = [] := List.length_eq_zero.mp hlen.symm
    subst hi
    simp [ipNetContainsLoop]
  | cons n ns ih =>
    intro ips hn hi hlen
    cases ips with
    | nil => simp at hlen
    | cons i itail =>
      have hn0 : n < 256 := hn n (List.mem_cons_self _ _)
      have hi0 : i < 256 := hi i (List.mem_cons_self _ _)
      simp only [List.length_cons] at hlen
      simp only [List.length_cons, List.replicate_succ, ipNetContainsLoop,
        Bool.and_eq_true, beq_iff_eq, andByte255 n hn0, andByte255 i hi0,
        List.cons.injEq]
      exact and_congr Iff.rfl
        (ih itail (fun b hb => hn b (List.mem_cons_of_mem _ hb))
          (fun b hb => hi b (List.mem_cons_of_mem _ hb)) (by omega))

theorem ipNetContainsLoop_maskZero (ns : List Nat) :
    ∀ ms ips : List Nat, (∀ b ∈ ms, b = 0) →
      ipNetContainsLoop ns ms ips = true := by
  induction ns with
  | nil => intro ms ips _; cases ms <;> cases ips <;> rfl
  | cons n ns ih =>
    intro ms ips hm
    cases ms with
    | nil => cases ips <;> rfl
    | cons m mtail =>
      cases ips with
      | nil => rfl
      | cons i itail =>
        have hm0 : m = 0 := hm m (List.mem_cons_self _ _)
        subst hm0
        simp only [ipNetContainsLoop, Nat.and_zero, beq_self_eq_true, Bool.true_and]
        exact ih mtail itail (fun b hb => hm b (List.mem_cons_of_mem _ hb))

/-- The Go containment test agrees with the byte-level meaning of membership
in `64:ff9b::/96` on every valid byte slice. -/
theorem nat64Contains_char (ip : List Nat) (hv : ∀ b ∈ ip, b < 256) :
    (nat64Contains (some ip) = true ↔ ip.length = 16 ∧ ip.take 12 = nat64First12) := by
  by_cases h4 : ip.length = 4
  · have hto : ipTo4 ip = some ip := by simp [ipTo4, h4]
    simp [nat64Contains, goIPBytes, hto, h4]
  · by_cases hmap : ip.length = 16 ∧ ip.take 12 = [0, 0, 0, 0, 0, 0, 0, 0, 0, 0, 255, 255]
    · have hto : ipTo4 ip = some (ip.drop 12) := by
        rw [ipTo4, if_neg h4, if_pos hmap]
      have hlen : (ip.drop 12).length = 4 := by
        simp [List.length_drop, hmap.1]
      constructor
      · intro h
        exfalso
        rw [nat64Contains] at h
        simp only [goIPBytes, Option.getD_some, hto, hlen] at h
        simp at h
      · rintro ⟨-, htake⟩
        rw [htake] at hmap
        exact absurd hmap.2 (by decide)
    · have hto : ipTo4 ip = none := by
        rw [ipTo4, if_neg h4, if_neg hmap]
      by_cases h16 : ip.length = 16
      · have hsplit : ip.take 12 ++ ip.drop 12 = ip := List.take_append_drop 12 ip
        have hlen12 : (ip.take 12).length = 12 := by
          simp [List.length_take, h16]
        have happ : ipNetContainsLoop nat64NetNumber nat64NetMask ip =
            (ipNetContainsLoop nat64First12 (List.replicate nat64First12.length 255)
              (ip.take 12) &&
             ipNetContainsLoop [0, 0, 0, 0] [0, 0, 0, 0] (ip.drop 12)) := by
          conv_lhs => rw [← hsplit]
          exact ipNetContainsLoop_append nat64First12
            (List.replicate nat64First12.length 255) (ip.take 12)
            [0, 0, 0, 0] [0, 0, 0, 0] (ip.drop 12)
            (by rw [hlen12]; rfl) (by rw [hlen12]; rfl)
        have hzero : ipNetContainsLoop [0, 0, 0, 0] [0, 0, 0, 0] (ip.drop 12) = true :=
          ipNetContainsLoop_maskZero _ _ _ (by decide)
        have h255 := ipNetContainsLoop_mask255 nat64First12 (ip.take 12)
          (by decide) (fun b hb => hv b (List.take_subset _ _ hb))
          (by rw [hlen12]; rfl)
        have hcontains : nat64Contains (some ip) =
            ipNetContainsLoop nat64NetNumber nat64NetMask ip := by
          rw [nat64Contains]
          simp [goIPBytes, hto, h16]
        rw [hcontains, happ, hzero, Bool.and_true, h255]
        constructor
        · intro h; exact ⟨h16, h.symm⟩
        · intro h; exact h.2.symm
      · constructor
        · intro h
          exfalso
          rw [nat64Contains] at h
          simp only [goIPBytes, Option.getD_some, hto] at h
          simp [h16] at h
        · intro h; exact absurd h.1 h16

/-- Inversion of `newQueryLog`. -/
theorem newQueryLog_inv {p : Packet} {c : InterceptorLogCommon} {ql : QueryLog}
    (h : newQueryLog p c = some ql) :
    ∃ dns question rest, p.dns = some dns ∧ dns.Questions = question :: rest ∧
      ql = { common := c, QString := question.Name
             QType := dnsTypeString question.Typ
             hasAnswer := decide (dns.Answers.length > 0) } := by
  cases hd : p.dns with
  | none => simp [newQueryLog, hd] at h
  | some dns =>
    cases hq : dns.Questions with
    | nil => simp [newQueryLog, hd, hq] at h
    | cons question rest =>
      simp only [newQueryLog, hd, hq] at h
      refine ⟨dns, question, rest, rfl, hq, ?_⟩
      exact (Option.some_inj.mp h).symm

/-- Inversion of `newResponseLog`. -/
theorem newResponseLog_inv {p : Packet} {q : Option QueryLog} {rl : ResponseLog}
    (h : newResponseLog p q = some rl) :
    ∃ ql dns answer rest, q = some ql ∧ p.dns = some dns ∧
      dns.Answers = answer :: rest ∧
      rl = { query := { ql with hasAnswer := answer.IP.isSome }
             AnsIP := answer.IP
             IPv6Ready := !(nat64Contains answer.IP) } := by
  cases q with
  | none => simp [newResponseLog] at h
  | some ql =>
    cases hd : p.dns with
    | none => simp [newResponseLog, hd] at h
    | some dns =>
      cases ha : dns.Answers with
      | nil => simp [newResponseLog, hd, ha] at h
      | cons answer rest =>
        simp only [newResponseLog, hd, ha] at h
        refine ⟨ql, dns, answer, rest, rfl, rfl, ha, ?_⟩
        exact (Option.some_inj.mp h).symm

theorem isValidQueryB_some {c : InterceptorLogCommon} {q : Option QueryLog}
    (h : isValidQueryB c q = true) : ∃ ql, q = some ql := by
  cases q with
  | some ql => exact ⟨ql, rfl⟩
  | none => simp [isValidQueryB] at h

theorem hasAAAAAnswerB_some {c : InterceptorLogCommon} {r : Option ResponseLog}
    (h : hasAAAAAnswerB c r = true) : ∃ rl, r = some rl := by
  cases r with
  | some rl => exact ⟨rl, rfl⟩
  | none => simp [hasAAAAAnswerB, isValidResponseB] at h

theorem newResponseLog_q_some {p : Packet} {q : Option QueryLog} {rl : ResponseLog}
    (h : newResponseLog p q = some rl) : ∃ ql, q = some ql := by
  obtain ⟨ql, _, _, _, hq, _, _, _⟩ := newResponseLog_inv h
  exact ⟨ql, hq⟩

/-! ## The claims -/

/-- C1. The claim says a frame carrying a decode error at any layer, or lacking
an IPv6 network layer (every IPv4 frame), is dropped without emission and the
per-frame loop continues. On the code this fails: `newInterceptorLogCommon`
returns nil for both kinds of frame, `interceptor` passes that nil pointer to
`newQueryLog`, and `q.InterceptorLogCommon = *c` (interceptor.go:146)
dereferences it, so the loop panics and the process crashes instead of
continuing. This theorem evaluates the per-frame step at an IPv4 DNS frame and
at a decode-error frame: both reach the nil-pointer panic. -/
theorem c1_droppedFramePanics :
    newInterceptorLogCommon 0 ipv4DnsPacket = none ∧
    newInterceptorLogCommon 0 decodeErrorPacket = none ∧
    processPacket false 0 ipv4DnsPacket = Except.error GoPanic.nilPointerDeref ∧
    processPacket false 0 decodeErrorPacket = Except.error GoPanic.nilPointerDeref :=
  ⟨rfl, rfl, rfl, rfl⟩

/-- C2. For the durable sink, starting from a zero consecutive-failure counter:
exactly 6 consecutive failed INSERTs terminate the process with a non-zero exit
(modelled by `none`); 5 consecutive failures do not terminate and leave the
counter at 5; 5 failures followed by one successful write do not terminate and
reset the counter to 0; every successful write resets the counter to 0. -/
theorem c2_fatalThreshold (qr : InterceptorLog) (co rows : List InterceptorLog) :
    runDBExporter qr (List.replicate 6 false) ⟨co, rows, 0⟩ = none ∧
    runDBExporter qr (List.replicate 5 false) ⟨co, rows, 0⟩ = some ⟨co, rows, 5⟩ ∧
    runDBExporter qr (List.replicate 5 false ++ [true]) ⟨co, rows, 0⟩ =
      some ⟨co, rows ++ [qr], 0⟩ ∧
    (∀ env : ExportEnv, dbExporterRun true qr env =
      some { env with dbRows := env.dbRows ++ [qr], errCounter := 0 }) :=
  ⟨rfl, rfl, rfl, fun _ => rfl⟩

/-- C4. On every derived response record, the IPv6-readiness boolean is true
iff the answer address does not lie inside `64:ff9b::/96` (`insideNat64` is
the spec-side meaning of membership in that block); in particular the boundary
address `64:ff9b::` yields readiness false and `64:ff9a::` yields readiness
true. -/
theorem c4_ipv6ReadyOutsideNat64 :
    (∀ (p : Packet) (q : Option QueryLog) (rl : ResponseLog),
        newResponseLog p q = some rl →
        (∀ b ∈ goIPBytes rl.AnsIP, b < 256) →
        (rl.IPv6Ready = true ↔ ¬ insideNat64 rl.AnsIP)) ∧
    (newResponseLog nat64AnswerPacket (some dualQuery)).map ResponseLog.IPv6Ready
      = some false ∧
    (newResponseLog justOutsidePacket (some dualQuery)).map ResponseLog.IPv6Ready
      = some true := by
  refine ⟨?_, by decide, by decide⟩
  intro p q rl hr hv
  obtain ⟨ql, dns, answer, rest, hq, hd, ha, hrl⟩ := newResponseLog_inv hr
  subst hrl
  replace hv : ∀ b ∈ goIPBytes answer.IP, b < 256 := hv
  show (!(nat64Contains answer.IP)) = true ↔ ¬ insideNat64 answer.IP
  cases hip : answer.IP with
  | none =>
    have h1 : nat64Contains none = false := rfl
    simp [h1, insideNat64]
  | some ip =>
    rw [hip] at hv
    have hch := nat64Contains_char ip hv
    have hiff : insideNat64 (some ip) ↔
        ip.length = 16 ∧ ip.take 12 = nat64First12 := by
      simp [insideNat64]
    rw [Bool.not_eq_true', hiff, ← hch]
    cases h : nat64Contains (some ip) <;> simp

/-- Witness for C4: the response record for the NAT64 boundary answer
`64:ff9b::`. -/
def nat64Resp : ResponseLog :=
  { query := dualQuery, AnsIP := some addr64ff9b, IPv6Ready := false }

theorem c4_witness : nat64Resp.IPv6Ready = true ↔ ¬ insideNat64 nat64Resp.AnsIP :=
  c4_ipv6ReadyOutsideNat64.1 nat64AnswerPacket (some dualQuery) nat64Resp rfl
    (by decide)

/-- C3. A frame that is simultaneously a valid query (destination port 53,
query view derived) and carries a qualifying AAAA answer (source port 53,
response view derived, query type "AAAA", response has-answer true) is emitted
as the response view when the `--with-response` toggle (`sniffFlag`) is
enabled and as the query view when it is disabled. -/
theorem c3_emissionPrecedence (sniff : Bool) (now : Nat) (p : Packet)
    (c : InterceptorLogCommon) (ql : QueryLog) (rl : ResponseLog)
    (hc : newInterceptorLogCommon now p = some c)
    (hq : isValidQueryB c (newQueryLog p c) = true)
    (hr : hasAAAAAnswerB c (newResponseLog p (newQueryLog p c)) = true)
    (hql : newQueryLog p c = some ql)
    (hrl : newResponseLog p (newQueryLog p c) = some rl) :
    processPacket sniff now p =
      Except.ok (some (if sniff then InterceptorLog.response rl
                       else InterceptorLog.query ql)) := by
  simp only [processPacket, hc]
  rw [hq, hr, hrl, hql]
  cases sniff <;> simp

theorem c3_witness :
    processPacket true 0 dualPacket =
      Except.ok (some (if true then InterceptorLog.response dualResp
                       else InterceptorLog.query dualQuery)) :=
  c3_emissionPrecedence true 0 dualPacket dualCommon dualQuery dualResp
    rfl rfl rfl rfl rfl

/-- C5. For every frame whose endpoint metadata was derived, nothing is
emitted iff neither `is_valid_query` nor `has_aaaa_answer` holds; when at
least one of them holds, exactly one record (the single `log` value of that
iteration) is handed to the exporter fan-out. -/
theorem c5_emissionCondition (sniff : Bool) (now : Nat) (p : Packet)
    (c : InterceptorLogCommon)
    (hc : newInterceptorLogCommon now p = some c) :
    (processPacket sniff now p = Except.ok none ↔
      (isValidQueryB c (newQueryLog p c) = false ∧
       hasAAAAAnswerB c (newResponseLog p (newQueryLog p c)) = false)) ∧
    ((isValidQueryB c (newQueryLog p c) = true ∨
      hasAAAAAnswerB c (newResponseLog p (newQueryLog p c)) = true) →
      ∃ rec, processPacket sniff now p = Except.ok (some rec)) := by
  simp only [processPacket, hc]
  cases hq : isValidQueryB c (newQueryLog p c) with
  | false =>
    cases hr : hasAAAAAnswerB c (newResponseLog p (newQueryLog p c)) with
    | false => simp
    | true =>
      obtain ⟨rl, hrl⟩ := hasAAAAAnswerB_some hr
      obtain ⟨ql, hql⟩ := newResponseLog_q_some hrl
      rw [hrl, hql]
      cases sniff <;> simp
  | true =>
    obtain ⟨ql, hql⟩ := isValidQueryB_some hq
    cases hr : hasAAAAAnswerB c (newResponseLog p (newQueryLog p c)) with
    | false =>
      rw [hql]
      cases sniff <;> simp
    | true =>
      obtain ⟨rl, hrl⟩ := hasAAAAAnswerB_some hr
      rw [hrl, hql]
      cases sniff <;> simp

theorem c5_witness :
    (processPacket false 0 dualPacket = Except.ok none ↔
      (isValidQueryB dualCommon (newQueryLog dualPacket dualCommon) = false ∧
       hasAAAAAnswerB dualCommon
         (newResponseLog dualPacket (newQueryLog dualPacket dualCommon)) = false)) ∧
    ((isValidQueryB dualCommon (newQueryLog dualPacket dualCommon) = true ∨
      hasAAAAAnswerB dualCommon
        (newResponseLog dualPacket (newQueryLog dualPacket dualCommon)) = true) →
      ∃ rec, processPacket false 0 dualPacket = Except.ok (some rec)) :=
  c5_emissionCondition false 0 dualPacket dualCommon rfl

/-- C6. For every frame whose DNS message has at least one question, the query
view takes its queried name and type exactly from question index 0, whatever
the remaining questions are; the query view is absent when there is no DNS
layer or when the message has zero questions. -/
theorem c6_firstQuestionOnly (p : Packet) (c : InterceptorLogCommon) :
    (∀ msg question rest, p.dns = some msg → msg.Questions = question :: rest →
      newQueryLog p c = some { common := c, QString := question.Name
                               QType := dnsTypeString question.Typ
                               hasAnswer := decide (msg.Answers.length > 0) }) ∧
    (p.dns = none → newQueryLog p c = none) ∧
    (∀ msg, p.dns = some msg → msg.Questions = [] → newQueryLog p c = none) := by
  refine ⟨?_, ?_, ?_⟩
  · intro msg question rest hd hqs
    simp [newQueryLog, hd, hqs]
  · intro hd
    simp [newQueryLog, hd]
  · intro msg hd hqs
    simp [newQueryLog, hd, hqs]

theorem c6_witness :
    newQueryLog dualPacket dualCommon = some dualQuery ∧
    newQueryLog decodeErrorPacket dualCommon = none :=
  ⟨(c6_firstQuestionOnly dualPacket dualCommon).1
      { Questions := [{ Name := "example.com.", Typ := 28 }]
        Answers := [{ IP := some addrDocu }] }
      { Name := "example.com.", Typ := 28 } [] rfl rfl,
    (c6_firstQuestionOnly decodeErrorPacket dualCommon).2.1 rfl⟩

/-- C7. A response view is absent when the query view is absent and absent
when the DNS message has no answer (or no DNS layer at all); whenever a
response record exists, the frame has a DNS message with at least one answer
and the record's answer IP is exactly that of answer index 0. -/
theorem c7_responseNeedsQueryAndAnswer (p : Packet) :
    (newResponseLog p none = none) ∧
    (∀ ql, p.dns = none → newResponseLog p (some ql) = none) ∧
    (∀ ql msg, p.dns = some msg → msg.Answers = [] →
      newResponseLog p (some ql) = none) ∧
    (∀ ql rl, newResponseLog p (some ql) = some rl →
      ∃ msg answer rest, p.dns = some msg ∧ msg.Answers = answer :: rest ∧
        rl.AnsIP = answer.IP) := by
  refine ⟨rfl, ?_, ?_, ?_⟩
  · intro ql hd
    simp [newResponseLog, hd]
  · intro ql msg hd ha
    simp [newResponseLog, hd, ha]
  · intro ql rl h
    obtain ⟨ql2, msg, answer, rest, hq2, hd, ha, hrl⟩ := newResponseLog_inv h
    exact ⟨msg, answer, rest, hd, ha, by rw [hrl]⟩

theorem c7_witness :
    newResponseLog queryOnlyPacket (some dualQuery) = none ∧
    newResponseLog dualPacket none = none :=
  ⟨(c7_responseNeedsQueryAndAnswer queryOnlyPacket).2.2.1 dualQuery
      { Questions := [{ Name := "example.com.", Typ := 1 }], Answers := [] }
      rfl rfl,
    (c7_responseNeedsQueryAndAnswer dualPacket).1⟩

/-- C8. One fan-out call with the console sink and the durable sink in
registration order: a durable-sink write failure below the fatal threshold
does not prevent the console sink from receiving the record; the fan-out runs
every sink and does not abort on the durable sink's failure, which only
increments the failure counter. -/
theorem c8_fanoutIsolation (qr : InterceptorLog) (env : ExportEnv)
    (insertOk : Bool) (h : env.errCounter < 5) :
    fanout [stdExporterSink, dbExporterSink insertOk] qr env =
      some { consoleOut := env.consoleOut ++ [qr]
             dbRows := if insertOk then env.dbRows ++ [qr] else env.dbRows
             errCounter := if insertOk then 0 else env.errCounter + 1 } := by
  cases insertOk with
  | true =>
    simp [fanout, stdExporterSink, dbExporterSink, dbExporterRun]
  | false =>
    have hlt : env.errCounter + 1 < 65536 := by omega
    have h6 : ¬ (env.errCounter + 1 > 5) := by omega
    simp [fanout, stdExporterSink, dbExporterSink, dbExporterRun,
      Nat.mod_eq_of_lt hlt, h6]

theorem c8_witness :
    fanout [stdExporterSink, dbExporterSink false] (InterceptorLog.query dualQuery)
        ⟨[], [], 0⟩ =
      some { consoleOut := [InterceptorLog.query dualQuery], dbRows := []
             errCounter := 1 } :=
  c8_fanoutIsolation (InterceptorLog.query dualQuery) ⟨[], [], 0⟩ false (by decide)

/-- C9. On every query record the has-answer flag records whether the
originating message has at least one answer; on every response record it is
recomputed as "the first answer's IP is non-nil", whatever the query-side
flag of the query view it extends was. -/
theorem c9_hasAnswerFlags (p : Packet) :
    (∀ (c : InterceptorLogCommon) (ql : QueryLog) (msg : DNSMessage),
      p.dns = some msg → newQueryLog p c = some ql →
      ql.hasAnswer = decide (msg.Answers.length > 0)) ∧
    (∀ (q : QueryLog) (rl : ResponseLog) (msg : DNSMessage)
        (answer : DNSResourceRecord) (rest : List DNSResourceRecord),
      p.dns = some msg → msg.Answers = answer :: rest →
      newResponseLog p (some q) = some rl →
      rl.query.hasAnswer = answer.IP.isSome) := by
  refine ⟨?_, ?_⟩
  · intro c ql msg hd hql
    obtain ⟨msg2, question, rest, hd2, hqs, hrec⟩ := newQueryLog_inv hql
    rw [hd] at hd2
    obtain rfl := Option.some_inj.mp hd2
    rw [hrec]
  · intro q rl msg answer rest hd ha hr
    obtain ⟨ql2, msg2, answer2, rest2, hq2, hd2, ha2, hrec⟩ := newResponseLog_inv hr
    rw [hd] at hd2
    obtain rfl := Option.some_inj.mp hd2
    rw [ha] at ha2
    obtain rfl : answer = answer2 := (List.cons.injEq _ _ _ _ ▸ ha2).1
    rw [hrec]

theorem c9_witness :
    dualQuery.hasAnswer =
      decide ((([{ IP := some addrDocu }] : List DNSResourceRecord)).length > 0) ∧
    dualResp.query.hasAnswer = (some addrDocu : Option (List Nat)).isSome :=
  ⟨(c9_hasAnswerFlags dualPacket).1 dualCommon dualQuery
      { Questions := [{ Name := "example.com.", Typ := 28 }]
        Answers := [{ IP := some addrDocu }] } rfl rfl,
    (c9_hasAnswerFlags dualPacket).2 dualQuery dualResp
      { Questions := [{ Name := "example.com.", Typ := 28 }]
        Answers := [{ IP := some addrDocu }] }
      { IP := some addrDocu } [] rfl rfl rfl⟩

/-- C10. A frame whose DNS message has at least one answer but whose first
answer carries no IP address still yields a response record; on it has-answer
is false and IPv6-readiness is true (a nil address is not contained in
`64:ff9b::/96`), so such a frame can never satisfy the `has_aaaa_answer`
emission rule. -/
theorem c10_nilAnswerAddress (p : Packet) (c : InterceptorLogCommon)
    (q : QueryLog) (msg : DNSMessage) (answer : DNSResourceRecord)
    (rest : List DNSResourceRecord)
    (hd : p.dns = some msg) (ha : msg.Answers = answer :: rest)
    (hip : answer.IP = none) :
    newResponseLog p (some q) =
      some { query := { q with hasAnswer := false }
             AnsIP := none, IPv6Ready := true } ∧
    hasAAAAAnswerB c (newResponseLog p (some q)) = false := by
  have h : newResponseLog p (some q) =
      some { query := { q with hasAnswer := answer.IP.isSome }
             AnsIP := answer.IP, IPv6Ready := !(nat64Contains answer.IP) } := by
    simp [newResponseLog, hd, ha]
  rw [hip] at h
  refine ⟨h, ?_⟩
  rw [h]
  simp [hasAAAAAnswerB, isValidResponseB]

theorem c10_witness :
    newResponseLog nilAnswerPacket (some dualQuery) =
      some { query := { dualQuery with hasAnswer := false }
             AnsIP := none, IPv6Ready := true } ∧
    hasAAAAAnswerB dualCommon (newResponseLog nilAnswerPacket (some dualQuery))
      = false :=
  c10_nilAnswerAddress nilAnswerPacket dualCommon dualQuery
    { Questions := [{ Name := "example.com.", Typ := 28 }]
      Answers := [{ IP := none }] }
    { IP := none } [] rfl rfl rfl

end DnsInterceptor
